import Mathlib

/-!
# Verification of the LukeOS productivity scoring service

Shallow embedding of `src/services/scoring.ts`.  JavaScript numbers are
modelled as rationals (`ℚ`); the one floating-point operation with no exact
rational counterpart, `Math.sqrt` in the consistency computation, is modelled
over the reals (`ℝ`).  Optional record fields are modelled as `Option`;
JavaScript's `x || 0` / truthiness defaulting is made explicit.
-/

/-- JavaScript `Math.round`: rounds to the nearest integer, halves toward
positive infinity (`Math.round (-2.5) = -2`). -/
def jsRound (q : ℚ) : ℤ := ⌊q + 1/2⌋

/-- `Math.round` on the reals (used where `Math.sqrt` forces a real value). -/
noncomputable def jsRoundReal (x : ℝ) : ℤ := ⌊x + 1/2⌋

/-- JavaScript `v || 0` on an optional numeric field: an absent field behaves
as `0` (a present `0` is falsy and also yields `0`, the same value). -/
def orZero (o : Option ℚ) : ℚ := o.getD 0

/-- JavaScript truthiness of an optional boolean field: absent means `false`. -/
def orFalse (o : Option Bool) : Bool := o.getD false

/-- The `DailyMetrics` record of `scoring.ts`: one calendar day's signal
bundle.  Every field except `date` is optional. -/
structure DailyMetrics where
  date : String
  github_commits : Option ℚ := none
  github_prs : Option ℚ := none
  github_coding_minutes : Option ℚ := none
  exercise_minutes : Option ℚ := none
  workout_streak : Option ℚ := none
  exercised_today : Option Bool := none
  screen_time_minutes : Option ℚ := none
  productive_app_minutes : Option ℚ := none
  meetings_minutes : Option ℚ := none
  focus_time_minutes : Option ℚ := none
  deep_work_session : Option Bool := none
  sleep_hours : Option ℚ := none
  steps : Option ℚ := none
  productivity_score : Option ℚ := none
deriving DecidableEq

/-- The `WEIGHTS` constant table of `scoring.ts`.  Only `excessiveScreenTime`
is read by the scoring formula; the remaining entries are documentation. -/
structure Weights where
  commits : ℚ
  prs : ℚ
  codingMinutes : ℚ
  exerciseMinutes : ℚ
  workoutStreak : ℚ
  exercisedToday : ℚ
  focusTime : ℚ
  deepWorkSession : ℚ
  meetingsMinutes : ℚ
  sleepHours : ℚ
  steps : ℚ
  excessiveScreenTime : ℚ

def WEIGHTS : Weights :=
  { commits := 10, prs := 10, codingMinutes := 10,
    exerciseMinutes := 15, workoutStreak := 5, exercisedToday := 5,
    focusTime := 15, deepWorkSession := 5, meetingsMinutes := 5,
    sleepHours := 5, steps := 5,
    excessiveScreenTime := -10 }

/-- `calculateProductivityScore` of `scoring.ts`.  Each sub-term mirrors one
`score +=` step of the source, in source order; the running total is the sum
of the sub-terms, clamped to `[0, 100]` at the end.  `score` is a JavaScript
number, so the result is a rational (integer whenever every contributing
sub-term is). -/
def calculateProductivityScore (metrics : DailyMetrics) : ℚ :=
  -- Commits: 1 point each, max 10
  let commitScore := min (orZero metrics.github_commits) 10 * 1
  -- PRs: 2 points each, max 10
  let prScore := min (orZero metrics.github_prs) 5 * 2
  -- Coding time: 1 point per 30 mins, max 10
  let codingScore := min (orZero metrics.github_coding_minutes / 30) 10
  -- Exercise: 1 point per 15 mins, max 15
  let exerciseScore := min (orZero metrics.exercise_minutes / 15) 15
  -- Workout streak: 1 point per day of streak, max 5
  let streakScore := min (orZero metrics.workout_streak) 5
  -- Exercised today bonus
  let exercisedBonus : ℚ := if orFalse metrics.exercised_today then 5 else 0
  -- Focus time: 1 point per 20 mins, max 15
  let focusScore := min (orZero metrics.focus_time_minutes / 20) 15
  -- Deep work session bonus (>2 hours)
  let deepWorkBonus : ℚ := if orFalse metrics.deep_work_session then 5 else 0
  -- Meetings: less is better
  let meetingsPenalty := max 0 ((orZero metrics.meetings_minutes - 120) / 60) * 2
  -- Sleep: optimal is 7-8 hours
  let sleep := orZero metrics.sleep_hours
  let sleepScore : ℚ :=
    if 7 ≤ sleep ∧ sleep ≤ 8 then 5
    else if 6 ≤ sleep ∧ sleep ≤ 9 then 3
    else if 0 < sleep then 1
    else 0
  -- Steps: 1 point per 2000 steps, max 5
  let stepsScore := min (orZero metrics.steps / 2000) 5
  -- Excessive screen time penalty (>6 hours)
  let screenPenalty : ℚ :=
    if 360 < orZero metrics.screen_time_minutes then WEIGHTS.excessiveScreenTime else 0
  let score := commitScore + prScore + (jsRound codingScore : ℚ)
    + (jsRound exerciseScore : ℚ) + streakScore + exercisedBonus
    + (jsRound focusScore : ℚ) + deepWorkBonus
    - (jsRound meetingsPenalty : ℚ) + sleepScore + (jsRound stepsScore : ℚ)
    + screenPenalty
  -- Ensure score is between 0 and 100
  max 0 (min 100 score)

/-- `getScoreGrade` of `scoring.ts`: score to letter grade, first match wins. -/
def getScoreGrade (score : ℚ) : String :=
  if 90 ≤ score then "A+"
  else if 80 ≤ score then "A"
  else if 70 ≤ score then "B"
  else if 60 ≤ score then "C"
  else if 50 ≤ score then "D"
  else "F"

example :
    calculateProductivityScore
      { date := "2025-01-06", github_commits := some 5, github_prs := some 2,
        github_coding_minutes := some 60, exercise_minutes := some 30,
        exercised_today := some true, focus_time_minutes := some 40,
        meetings_minutes := some 30, sleep_hours := some (15/2),
        steps := some 8000 } = 29 := by
  norm_num [calculateProductivityScore, orZero, orFalse, jsRound, WEIGHTS]

example : calculateProductivityScore { date := "d" } = 0 := by
  norm_num [calculateProductivityScore, orZero, orFalse, jsRound, WEIGHTS]

/-! ## Pattern detection (`detectPatterns` and its helpers) -/

/-- The trend enumeration of `PatternAnalysis`. -/
inductive Trend where
  | improving
  | declining
  | stable
deriving DecidableEq

/-- One element of the `dailyScores` array built at the top of
`detectPatterns`. -/
structure ScoredDay where
  date : String
  score : ℚ
  exercised : Bool
  exerciseMinutes : ℚ
deriving DecidableEq

/-- The `PatternAnalysis` record of `scoring.ts`.  `avgDailyScore`,
`consistency` and the two-decimal `workoutCorrelation` are the rounded values
placed in the returned object. -/
structure PatternAnalysis where
  avgDailyScore : ℤ
  consistency : ℤ
  workoutCorrelation : ℚ
  bestDay : String
  worstDay : String
  trend : Trend
  insights : List String
  recommendations : List String

/-- The per-day record mapped over `weeklyMetrics` in `detectPatterns`. -/
def toScoredDay (m : DailyMetrics) : ScoredDay :=
  { date := m.date, score := calculateProductivityScore m,
    exercised := orFalse m.exercised_today,
    exerciseMinutes := orZero m.exercise_minutes }

def dailyScoresOf (weeklyMetrics : List DailyMetrics) : List ScoredDay :=
  weeklyMetrics.map toScoredDay

/-- `reduce((sum, d) => sum + d.score, 0)` over a list of scored days. -/
def sumScores (ds : List ScoredDay) : ℚ :=
  ds.foldl (fun sum d => sum + d.score) 0

/-- The (unrounded) average score of `detectPatterns`. -/
def avgOf (ds : List ScoredDay) : ℚ := sumScores ds / ds.length

/-- The variance accumulated in `detectPatterns` (divisor is the day count). -/
def varianceOf (ds : List ScoredDay) : ℚ :=
  ds.foldl (fun sum d => sum + (d.score - avgOf ds) ^ 2) 0 / ds.length

/-- `consistency` before rounding: `Math.max(0, 100 - stdDev * 2)` with
`stdDev = Math.sqrt(variance)`, modelled over the reals. -/
noncomputable def consistencyOf (ds : List ScoredDay) : ℝ :=
  max 0 (100 - Real.sqrt (varianceOf ds) * 2)

/-- `workoutCorrelation` before two-decimal rounding: zero when either
partition by `exercised` is empty, otherwise the clamped normalized mean
difference. -/
def workoutCorrelationOf (ds : List ScoredDay) : ℚ :=
  let exercisedDays := ds.filter (fun d => d.exercised)
  let nonExercisedDays := ds.filter (fun d => !d.exercised)
  if 0 < exercisedDays.length ∧ 0 < nonExercisedDays.length then
    let avgExercised := sumScores exercisedDays / exercisedDays.length
    let avgNonExercised := sumScores nonExercisedDays / nonExercisedDays.length
    min 1 (max (-1) ((avgExercised - avgNonExercised) / 50))
  else 0

/-- `[...dailyScores].sort((a, b) => b.score - a.score)`: a stable sort by
descending score. -/
def sortedByScoreDesc (ds : List ScoredDay) : List ScoredDay :=
  ds.mergeSort (fun a b => decide (b.score ≤ a.score))

def bestDayOf (ds : List ScoredDay) : String :=
  (((sortedByScoreDesc ds).head?).map (fun d => d.date)).getD "N/A"

def worstDayOf (ds : List ScoredDay) : String :=
  (((sortedByScoreDesc ds).getLast?).map (fun d => d.date)).getD "N/A"

/-- The first-half / second-half trend comparison of `detectPatterns`. -/
def trendOf (ds : List ScoredDay) : Trend :=
  if 4 ≤ ds.length then
    let midpoint := ds.length / 2
    let firstHalf := sumScores (ds.take midpoint) / (midpoint : ℚ)
    let secondHalf := sumScores (ds.drop midpoint) / ((ds.length - midpoint : ℕ) : ℚ)
    if 10 < secondHalf - firstHalf then Trend.improving
    else if 10 < firstHalf - secondHalf then Trend.declining
    else Trend.stable
  else Trend.stable


/-! ## Insights and recommendations -/

/-- Does the character list start with `pat`? (Helper for substring search.) -/
def charsStartWith : List Char → List Char → Bool
  | [], _ => true
  | _ :: _, [] => false
  | p :: ps, c :: cs => p == c && charsStartWith ps cs

/-- Does the character list contain `pat` as a contiguous run? -/
def charsContain (pat : List Char) : List Char → Bool
  | [] => charsStartWith pat []
  | c :: cs => charsStartWith pat (c :: cs) || charsContain pat cs

/-- JavaScript `s.includes(pat)`: contiguous-substring test. -/
def jsIncludes (s pat : String) : Bool := charsContain pat.toList s.toList

/-- The `days` array of `generateInsights`. -/
def dayNames : List String :=
  ["Sunday", "Monday", "Tuesday", "Wednesday", "Thursday", "Friday", "Saturday"]

/-- `days[parseInt(key)]` for an entry key of the per-weekday score record: a
valid weekday index selects its name; the `NaN` key (an unparseable date,
modelled as `none`) indexes out of range, which JavaScript renders as
`undefined` in the template string. -/
def weekdayName : Option (Fin 7) → String
  | some k => dayNames.getD k.val "undefined"
  | none => "undefined"

/-- The per-weekday score totals of `generateInsights`, as the entry list
`Object.entries` yields: JavaScript objects enumerate integer-like keys in
ascending order first, then string keys (here the single key `"NaN"`, from
dates `new Date` cannot parse, modelled as `none`) in insertion order.  Each
present key is paired with the sum of the scores of the days mapped to it.
`getDay` is the ambient `new Date(str).getDay()` weekday lookup, a parameter
of this model. -/
def dayScoreEntries (getDay : String → Option (Fin 7)) (ds : List ScoredDay) :
    List (Option (Fin 7) × ℚ) :=
  (((List.finRange 7).map some ++ [none]).filter
      (fun k => ds.any (fun d => getDay d.date == k))).map
    (fun k => (k, (((ds.filter (fun (d : ScoredDay) => getDay d.date == k)).map
      (fun (d : ScoredDay) => d.score)).sum)))

/-- `generateInsights` of `scoring.ts`.  `consistency` is the unrounded real
value and `workoutCorrelation` the unrounded clamped rational, exactly as
`detectPatterns` passes them. -/
noncomputable def generateInsights (getDay : String → Option (Fin 7))
    (dailyScores : List ScoredDay) (consistency : ℝ)
    (workoutCorrelation : ℚ) (trend : Trend) : List String :=
  let insights : List String := []
  -- Consistency insight
  let insights :=
    if 80 ≤ consistency then
      insights ++ ["Highly consistent - you maintain steady productivity"]
    else if consistency < 50 then
      insights ++ ["High variability - productivity fluctuates significantly"]
    else insights
  -- Workout correlation insight
  let insights :=
    if (3/10 : ℚ) < workoutCorrelation then
      insights ++ ["Exercise significantly boosts your productivity"]
    else if workoutCorrelation < -(2/10 : ℚ) then
      insights ++ ["Productivity seems lower on exercise days - check timing"]
    else insights
  -- Trend insight
  let insights :=
    if trend = Trend.improving then
      insights ++ ["Productivity is trending upward this week"]
    else if trend = Trend.declining then
      insights ++ ["Productivity declining - consider a reset"]
    else insights
  -- Find pattern in days: entries sorted by total descending (stable)
  let sortedEntries :=
    (dayScoreEntries getDay dailyScores).mergeSort
      (fun a b => decide (b.2 ≤ a.2))
  let insights :=
    match sortedEntries.head? with
    | some e => insights ++ ["Most productive on " ++ weekdayName e.1 ++ "s"]
    | none => insights
  insights

/-- `generateRecommendations` of `scoring.ts`.  `dailyScores[0]` is the most
recent day; the accumulated list is truncated to its first five elements. -/
def generateRecommendations (dailyScores : List ScoredDay)
    (insights : List String) : List String :=
  let recommendations : List String := []
  let lastDay := dailyScores.head?
  -- If low score today
  let recommendations :=
    match lastDay with
    | some d =>
        if d.score < 50 then
          recommendations ++
            ["Start tomorrow with exercise to boost productivity",
             "Block focus time early in the morning"]
        else recommendations
    | none => recommendations
  -- If no exercise (JS: !lastDay?.exercised)
  let recommendations :=
    if !((lastDay.map (fun d => d.exercised)).getD false) then
      recommendations ++ ["Add a 20-minute workout to improve focus"]
    else recommendations
  -- If high variability
  let recommendations :=
    if insights.any (fun i => jsIncludes i "fluctuates") then
      recommendations ++
        ["Create a more consistent daily routine",
         "Set fixed times for coding, exercise, and rest"]
    else recommendations
  -- If declining trend
  let recommendations :=
    if insights.any (fun i => jsIncludes i "declining") then
      recommendations ++
        ["Take a rest day and plan for next week",
         "Review what changed in your routine"]
    else recommendations
  -- General recommendations
  let recommendations :=
    recommendations ++
      ["Aim for 7-8 hours of sleep",
       "Schedule deep work sessions (>2 hours)",
       "Limit meetings to 2 hours per day"]
  recommendations.take 5

/-- `detectPatterns` of `scoring.ts`.  The empty week takes the explicit
neutral branch; otherwise every statistic is computed from the freshly scored
days and the rounded values are assembled into the result record. -/
noncomputable def detectPatterns (getDay : String → Option (Fin 7))
    (weeklyMetrics : List DailyMetrics) : PatternAnalysis :=
  if weeklyMetrics.isEmpty then
    { avgDailyScore := 0, consistency := 0, workoutCorrelation := 0,
      bestDay := "N/A", worstDay := "N/A", trend := Trend.stable,
      insights := [], recommendations := [] }
  else
    let dailyScores := dailyScoresOf weeklyMetrics
    let avgDailyScore := avgOf dailyScores
    let consistency := consistencyOf dailyScores
    let workoutCorrelation := workoutCorrelationOf dailyScores
    let trend := trendOf dailyScores
    let insights :=
      generateInsights getDay dailyScores consistency workoutCorrelation trend
    let recommendations := generateRecommendations dailyScores insights
    { avgDailyScore := jsRound avgDailyScore,
      consistency := jsRoundReal consistency,
      workoutCorrelation := (jsRound (workoutCorrelation * 100) : ℚ) / 100,
      bestDay := bestDayOf dailyScores,
      worstDay := worstDayOf dailyScores,
      trend := trend,
      insights := insights,
      recommendations := recommendations }

/-! ## Specification-side formulas -/

/-- The per-day scores of a week, in input order. -/
def scoreList (l : List DailyMetrics) : List ℚ := l.map calculateProductivityScore

/-- Arithmetic mean of a list of rationals (0 for the empty list, as in the
JavaScript `0 / 0 = NaN`-free uses below, which only arise on non-empty
lists). -/
def listAvg (xs : List ℚ) : ℚ := xs.sum / xs.length

/-- Population variance: squared deviations from the mean, divided by the
count (not count − 1). -/
def popVariance (xs : List ℚ) : ℚ :=
  ((xs.map (fun s => (s - listAvg xs) ^ 2)).sum) / xs.length

/-- Rounding to two decimal places, JavaScript style
(`Math.round(q * 100) / 100`). -/
def round2 (q : ℚ) : ℚ := (jsRound (q * 100) : ℚ) / 100

/-! ## Helper lemmas -/

@[gcongr]
theorem jsRound_mono {a b : ℚ} (h : a ≤ b) : jsRound a ≤ jsRound b :=
  Int.floor_le_floor (by linarith)

theorem jsRound_intCast (z : ℤ) : jsRound (z : ℚ) = z := by
  rw [jsRound, Int.floor_int_add]
  norm_num

theorem jsRound_le {q : ℚ} {n : ℤ} (h : q ≤ (n : ℚ)) : jsRound q ≤ n := by
  have := jsRound_mono h
  rwa [jsRound_intCast] at this

theorem le_jsRound {q : ℚ} {n : ℤ} (h : (n : ℚ) ≤ q) : n ≤ jsRound q := by
  have := jsRound_mono h
  rwa [jsRound_intCast] at this

theorem jsRound_nonneg {q : ℚ} (h : 0 ≤ q) : 0 ≤ jsRound q :=
  le_jsRound (by exact_mod_cast h)

/-- A rational is an integer exactly when its reduced denominator is 1. -/
def ratIsInt (q : ℚ) : Prop := q.den = 1

theorem ratIsInt_intCast (z : ℤ) : ratIsInt ((z : ℤ) : ℚ) := Rat.den_intCast z

theorem ratIsInt_exists {q : ℚ} (h : ratIsInt q) : ∃ z : ℤ, q = (z : ℚ) :=
  ⟨q.num, (Rat.coe_int_num_of_den_eq_one h).symm⟩

theorem ratIsInt_ofNat (n : ℕ) : ratIsInt (OfNat.ofNat n : ℚ) := Rat.den_ofNat n

theorem ratIsInt_add {a b : ℚ} (ha : ratIsInt a) (hb : ratIsInt b) :
    ratIsInt (a + b) := by
  obtain ⟨x, rfl⟩ := ratIsInt_exists ha
  obtain ⟨y, rfl⟩ := ratIsInt_exists hb
  rw [← Int.cast_add]
  exact ratIsInt_intCast _

theorem ratIsInt_sub {a b : ℚ} (ha : ratIsInt a) (hb : ratIsInt b) :
    ratIsInt (a - b) := by
  obtain ⟨x, rfl⟩ := ratIsInt_exists ha
  obtain ⟨y, rfl⟩ := ratIsInt_exists hb
  rw [← Int.cast_sub]
  exact ratIsInt_intCast _

theorem ratIsInt_mul {a b : ℚ} (ha : ratIsInt a) (hb : ratIsInt b) :
    ratIsInt (a * b) := by
  obtain ⟨x, rfl⟩ := ratIsInt_exists ha
  obtain ⟨y, rfl⟩ := ratIsInt_exists hb
  rw [← Int.cast_mul]
  exact ratIsInt_intCast _

theorem ratIsInt_min {a b : ℚ} (ha : ratIsInt a) (hb : ratIsInt b) :
    ratIsInt (min a b) := by
  obtain ⟨x, rfl⟩ := ratIsInt_exists ha
  obtain ⟨y, rfl⟩ := ratIsInt_exists hb
  rw [← Int.cast_min]
  exact ratIsInt_intCast _

theorem ratIsInt_max {a b : ℚ} (ha : ratIsInt a) (hb : ratIsInt b) :
    ratIsInt (max a b) := by
  obtain ⟨x, rfl⟩ := ratIsInt_exists ha
  obtain ⟨y, rfl⟩ := ratIsInt_exists hb
  rw [← Int.cast_max]
  exact ratIsInt_intCast _

/-! ## Claim theorems: the daily scorer -/

/-- The concrete scenario record from the specification's testable
properties. -/
def scenarioMetrics : DailyMetrics :=
  { date := "2025-01-06", github_commits := some 5, github_prs := some 2,
    github_coding_minutes := some 60, exercise_minutes := some 30,
    exercised_today := some true, focus_time_minutes := some 40,
    meetings_minutes := some 30, sleep_hours := some (15/2),
    steps := some 8000 }

/-- **C3.** On the scenario record, `calculateProductivityScore` returns
exactly 29, with per-term contributions commits 5, PRs 4, coding 2,
exercise 2, exercised-today bonus 5 (the flag is set), focus 2, meeting
penalty 0, sleep 5 (7 ≤ 7.5 ≤ 8 band), steps 4, each sub-term capped and then
rounded independently before summation. -/
theorem scenario_score_29 :
    calculateProductivityScore scenarioMetrics = 29 ∧
    min (orZero scenarioMetrics.github_commits) 10 * 1 = 5 ∧
    min (orZero scenarioMetrics.github_prs) 5 * 2 = 4 ∧
    jsRound (min (orZero scenarioMetrics.github_coding_minutes / 30) 10) = 2 ∧
    jsRound (min (orZero scenarioMetrics.exercise_minutes / 15) 15) = 2 ∧
    orFalse scenarioMetrics.exercised_today = true ∧
    jsRound (min (orZero scenarioMetrics.focus_time_minutes / 20) 15) = 2 ∧
    jsRound (max 0 ((orZero scenarioMetrics.meetings_minutes - 120) / 60) * 2) = 0 ∧
    (7 ≤ orZero scenarioMetrics.sleep_hours ∧ orZero scenarioMetrics.sleep_hours ≤ 8) ∧
    jsRound (min (orZero scenarioMetrics.steps / 2000) 5) = 4 := by
  norm_num [calculateProductivityScore, scenarioMetrics, orZero, orFalse,
    jsRound, WEIGHTS]

/-- **C10.** The positive sub-term caps sum to
10+10+10+15+5+5+15+5+5+5 = 85, so the scorer never returns more than 85: the
upper clamp at 100 never binds and the grade of a scorer output is never
`A+` (which needs a score of at least 90). -/
theorem score_at_most_85_never_aplus (m : DailyMetrics) :
    calculateProductivityScore m ≤ 85 ∧
    getScoreGrade (calculateProductivityScore m) ≠ "A+" := by
  have hb : calculateProductivityScore m ≤ 85 := by
    rw [calculateProductivityScore]
    have h1 : min (orZero m.github_commits) 10 * 1 ≤ 10 := by
      have := min_le_right (orZero m.github_commits) 10
      linarith
    have h2 : min (orZero m.github_prs) 5 * 2 ≤ 10 := by
      have := min_le_right (orZero m.github_prs) 5
      linarith
    have h3 : (jsRound (min (orZero m.github_coding_minutes / 30) 10) : ℚ) ≤ 10 := by
      have : jsRound (min (orZero m.github_coding_minutes / 30) 10) ≤ (10 : ℤ) :=
        jsRound_le (by push_cast; exact min_le_right _ _)
      exact_mod_cast this
    have h4 : (jsRound (min (orZero m.exercise_minutes / 15) 15) : ℚ) ≤ 15 := by
      have : jsRound (min (orZero m.exercise_minutes / 15) 15) ≤ (15 : ℤ) :=
        jsRound_le (by push_cast; exact min_le_right _ _)
      exact_mod_cast this
    have h5 : min (orZero m.workout_streak) 5 ≤ 5 := min_le_right _ _
    have h6 : (if orFalse m.exercised_today then (5 : ℚ) else 0) ≤ 5 := by
      split <;> norm_num
    have h7 : (jsRound (min (orZero m.focus_time_minutes / 20) 15) : ℚ) ≤ 15 := by
      have : jsRound (min (orZero m.focus_time_minutes / 20) 15) ≤ (15 : ℤ) :=
        jsRound_le (by push_cast; exact min_le_right _ _)
      exact_mod_cast this
    have h8 : (if orFalse m.deep_work_session then (5 : ℚ) else 0) ≤ 5 := by
      split <;> norm_num
    have h9 : (0 : ℚ) ≤
        (jsRound (max 0 ((orZero m.meetings_minutes - 120) / 60) * 2) : ℚ) := by
      have : (0 : ℤ) ≤ jsRound (max 0 ((orZero m.meetings_minutes - 120) / 60) * 2) :=
        jsRound_nonneg (mul_nonneg (le_max_left _ _) (by norm_num))
      exact_mod_cast this
    have h10 : (if 7 ≤ orZero m.sleep_hours ∧ orZero m.sleep_hours ≤ 8 then (5 : ℚ)
        else if 6 ≤ orZero m.sleep_hours ∧ orZero m.sleep_hours ≤ 9 then 3
        else if 0 < orZero m.sleep_hours then 1
        else 0) ≤ 5 := by
      split_ifs <;> norm_num
    have h11 : (jsRound (min (orZero m.steps / 2000) 5) : ℚ) ≤ 5 := by
      have : jsRound (min (orZero m.steps / 2000) 5) ≤ (5 : ℤ) :=
        jsRound_le (by push_cast; exact min_le_right _ _)
      exact_mod_cast this
    have h12 : (if 360 < orZero m.screen_time_minutes
        then WEIGHTS.excessiveScreenTime else 0) ≤ 0 := by
      split_ifs <;> norm_num [WEIGHTS]
    refine max_le (by norm_num) (le_trans (min_le_right _ _) ?_)
    linarith
  refine ⟨hb, ?_⟩
  rw [getScoreGrade, if_neg (by linarith)]
  split_ifs <;> decide

/-- A structurally valid record whose commit count is the JavaScript number
0.5 (the `number` type of the field admits fractions). -/
def fractionalCommitMetrics : DailyMetrics :=
  { date := "2025-01-06", github_commits := some (1/2) }

/-- **C1, counterexample.** With `github_commits = 0.5` the commit sub-term
is not rounded, so the returned score is the non-integer rational 1/2: the
"returns an integer" part of the claim fails for arbitrary numeric fields. -/
theorem score_not_always_integer :
    calculateProductivityScore fractionalCommitMetrics = 1/2 ∧
    (calculateProductivityScore fractionalCommitMetrics).den ≠ 1 := by
  have h : calculateProductivityScore fractionalCommitMetrics = 1/2 := by
    norm_num [calculateProductivityScore, fractionalCommitMetrics, orZero,
      orFalse, jsRound, WEIGHTS]
  refine ⟨h, fun hden => ?_⟩
  obtain ⟨z, hz⟩ := ratIsInt_exists hden
  rw [h] at hz
  have h3 : (1 : ℤ) = 2 * z := by
    have h2 : (1 : ℚ) = 2 * (z : ℚ) := by
      rw [← hz]
      norm_num
    exact_mod_cast h2
  omega

theorem ratIsInt_excessive : ratIsInt WEIGHTS.excessiveScreenTime := by
  have h : WEIGHTS.excessiveScreenTime = ((-10 : ℤ) : ℚ) := by norm_num [WEIGHTS]
  rw [h]
  exact ratIsInt_intCast _

/-- **C1, amended.** For every `DailyMetrics` record (all optional numeric
fields arbitrary JavaScript numbers, including absent), the returned score
satisfies `0 ≤ s ≤ 100`.  The score is moreover an integer whenever the
three unrounded count fields — commits, PRs and workout streak — hold
integers (in particular whenever they are absent); a fractional value in one
of those fields can make the score fractional. -/
theorem score_between_0_and_100 (m : DailyMetrics) :
    0 ≤ calculateProductivityScore m ∧ calculateProductivityScore m ≤ 100 ∧
    (ratIsInt (orZero m.github_commits) → ratIsInt (orZero m.github_prs) →
      ratIsInt (orZero m.workout_streak) →
      ratIsInt (calculateProductivityScore m)) := by
  refine ⟨?_, ?_, ?_⟩
  · rw [calculateProductivityScore]
    exact le_max_left _ _
  · rw [calculateProductivityScore]
    exact max_le (by norm_num) (min_le_left _ _)
  · intro h1 h2 h3
    rw [calculateProductivityScore]
    apply ratIsInt_max (ratIsInt_ofNat 0)
    apply ratIsInt_min (ratIsInt_ofNat 100)
    repeat'
      first
        | apply ratIsInt_add
        | apply ratIsInt_sub
    all_goals
      first
        | exact ratIsInt_intCast _
        | exact ratIsInt_mul (ratIsInt_min h1 (ratIsInt_ofNat 10)) (ratIsInt_ofNat 1)
        | exact ratIsInt_mul (ratIsInt_min h2 (ratIsInt_ofNat 5)) (ratIsInt_ofNat 2)
        | exact ratIsInt_min h3 (ratIsInt_ofNat 5)
        | (split_ifs <;>
            first
              | exact ratIsInt_ofNat _
              | exact ratIsInt_excessive)

/-- Integer-count record for the amended-C1 witness. -/
def integerCountMetrics : DailyMetrics :=
  { date := "2025-01-06", github_commits := some 3 }

/-- Witness for the amended C1: a concrete record with integer count fields
satisfies the hypotheses, and its score is an integer in range. -/
theorem score_between_0_and_100_witness :
    ratIsInt (orZero integerCountMetrics.github_commits) ∧
    ratIsInt (orZero integerCountMetrics.github_prs) ∧
    ratIsInt (orZero integerCountMetrics.workout_streak) ∧
    0 ≤ calculateProductivityScore integerCountMetrics ∧
    ratIsInt (calculateProductivityScore integerCountMetrics) := by
  have h1 : ratIsInt (orZero integerCountMetrics.github_commits) := rfl
  have h2 : ratIsInt (orZero integerCountMetrics.github_prs) := rfl
  have h3 : ratIsInt (orZero integerCountMetrics.workout_streak) := rfl
  exact ⟨h1, h2, h3,
    (score_between_0_and_100 integerCountMetrics).1,
    (score_between_0_and_100 integerCountMetrics).2.2 h1 h2 h3⟩

/-! ### Per-field monotonicity and neutrality of the scorer -/

theorem score_mono_commits (m : DailyMetrics) {x y : ℚ} (h : x ≤ y) :
    calculateProductivityScore { m with github_commits := some x } ≤
    calculateProductivityScore { m with github_commits := some y } := by
  rw [calculateProductivityScore, calculateProductivityScore]
  dsimp only [orZero, orFalse, Option.getD]
  gcongr

theorem score_mono_prs (m : DailyMetrics) {x y : ℚ} (h : x ≤ y) :
    calculateProductivityScore { m with github_prs := some x } ≤
    calculateProductivityScore { m with github_prs := some y } := by
  rw [calculateProductivityScore, calculateProductivityScore]
  dsimp only [orZero, orFalse, Option.getD]
  gcongr

theorem score_mono_coding (m : DailyMetrics) {x y : ℚ} (h : x ≤ y) :
    calculateProductivityScore { m with github_coding_minutes := some x } ≤
    calculateProductivityScore { m with github_coding_minutes := some y } := by
  rw [calculateProductivityScore, calculateProductivityScore]
  dsimp only [orZero, orFalse, Option.getD]
  gcongr

theorem score_mono_exercise (m : DailyMetrics) {x y : ℚ} (h : x ≤ y) :
    calculateProductivityScore { m with exercise_minutes := some x } ≤
    calculateProductivityScore { m with exercise_minutes := some y } := by
  rw [calculateProductivityScore, calculateProductivityScore]
  dsimp only [orZero, orFalse, Option.getD]
  gcongr

theorem score_mono_streak (m : DailyMetrics) {x y : ℚ} (h : x ≤ y) :
    calculateProductivityScore { m with workout_streak := some x } ≤
    calculateProductivityScore { m with workout_streak := some y } := by
  rw [calculateProductivityScore, calculateProductivityScore]
  dsimp only [orZero, orFalse, Option.getD]
  gcongr

theorem score_mono_focus (m : DailyMetrics) {x y : ℚ} (h : x ≤ y) :
    calculateProductivityScore { m with focus_time_minutes := some x } ≤
    calculateProductivityScore { m with focus_time_minutes := some y } := by
  rw [calculateProductivityScore, calculateProductivityScore]
  dsimp only [orZero, orFalse, Option.getD]
  gcongr

theorem score_mono_steps (m : DailyMetrics) {x y : ℚ} (h : x ≤ y) :
    calculateProductivityScore { m with steps := some x } ≤
    calculateProductivityScore { m with steps := some y } := by
  rw [calculateProductivityScore, calculateProductivityScore]
  dsimp only [orZero, orFalse, Option.getD]
  gcongr

/-- A non-positive screen-time value scores exactly like zero (only the
`> 360` comparison reads it). -/
theorem score_screen_nonpos_eq (m : DailyMetrics) {x : ℚ} (hx : x ≤ 0) :
    calculateProductivityScore { m with screen_time_minutes := some x } =
    calculateProductivityScore { m with screen_time_minutes := some 0 } := by
  rw [calculateProductivityScore, calculateProductivityScore]
  dsimp only [orZero, orFalse, Option.getD]
  rw [if_neg (by linarith : ¬ (360 : ℚ) < x),
    if_neg (by norm_num : ¬ (360 : ℚ) < 0)]

/-- A non-positive meetings value scores exactly like zero (the penalty is
`max 0`-guarded). -/
theorem score_meetings_nonpos_eq (m : DailyMetrics) {x : ℚ} (hx : x ≤ 0) :
    calculateProductivityScore { m with meetings_minutes := some x } =
    calculateProductivityScore { m with meetings_minutes := some 0 } := by
  rw [calculateProductivityScore, calculateProductivityScore]
  dsimp only [orZero, orFalse, Option.getD]
  have hx60 : (x - 120) / 60 ≤ 0 := by
    have h1 : (x - 120) / 60 ≤ (0 - 120) / 60 := by gcongr
    have h2 : ((0 : ℚ) - 120) / 60 = -2 := by norm_num
    linarith
  have h060 : ((0 : ℚ) - 120) / 60 ≤ 0 := by norm_num
  rw [max_eq_left hx60, max_eq_left h060]

/-- A non-positive sleep value scores exactly like zero (every band of the
sleep ladder needs a positive value). -/
theorem score_sleep_nonpos_eq (m : DailyMetrics) {x : ℚ} (hx : x ≤ 0) :
    calculateProductivityScore { m with sleep_hours := some x } =
    calculateProductivityScore { m with sleep_hours := some 0 } := by
  rw [calculateProductivityScore, calculateProductivityScore]
  dsimp only [orZero, orFalse, Option.getD]
  rw [if_neg (by rintro ⟨h7, -⟩; linarith : ¬((7 : ℚ) ≤ x ∧ x ≤ 8)),
    if_neg (by rintro ⟨h6, -⟩; linarith : ¬((6 : ℚ) ≤ x ∧ x ≤ 9)),
    if_neg (by linarith : ¬(0 : ℚ) < x),
    if_neg (by norm_num : ¬((7 : ℚ) ≤ 0 ∧ (0 : ℚ) ≤ 8)),
    if_neg (by norm_num : ¬((6 : ℚ) ≤ 0 ∧ (0 : ℚ) ≤ 9)),
    if_neg (by norm_num : ¬(0 : ℚ) < 0)]

/-- Commit counts at or above the cap of 10 all score alike. -/
theorem score_commits_saturate (m : DailyMetrics) {x : ℚ} (h : 10 ≤ x) :
    calculateProductivityScore { m with github_commits := some x } =
    calculateProductivityScore { m with github_commits := some 10 } := by
  rw [calculateProductivityScore, calculateProductivityScore]
  dsimp only [orZero, orFalse, Option.getD]
  rw [min_eq_right h, min_self]

/-- An otherwise-empty record used to instantiate field-update theorems. -/
def baseMetrics : DailyMetrics := { date := "2025-01-06" }

/-- A record with a negative commit count and the exercised flag set. -/
def negativeCommitMetrics : DailyMetrics :=
  { date := "2025-01-06", github_commits := some (-5), exercised_today := some true }

/-- `negativeCommitMetrics` with the negative commit count replaced by 0. -/
def zeroedCommitMetrics : DailyMetrics :=
  { date := "2025-01-06", github_commits := some 0, exercised_today := some true }

/-- **C2, counterexample.** Negative numeric fields are *not* clamped before
scoring: `github_commits = -5` passes through `Math.min` and drags the
pre-clamp total down, so replacing it by 0 changes the returned score
(0 versus 5).  The claimed clamp-to-zero policy fails on the code. -/
theorem negative_commits_not_clamped :
    calculateProductivityScore negativeCommitMetrics = 0 ∧
    calculateProductivityScore zeroedCommitMetrics = 5 ∧
    calculateProductivityScore negativeCommitMetrics ≠
      calculateProductivityScore zeroedCommitMetrics := by
  have h1 : calculateProductivityScore negativeCommitMetrics = 0 := by
    norm_num [calculateProductivityScore, negativeCommitMetrics, orZero,
      orFalse, jsRound, WEIGHTS]
  have h2 : calculateProductivityScore zeroedCommitMetrics = 5 := by
    norm_num [calculateProductivityScore, zeroedCommitMetrics, orZero,
      orFalse, jsRound, WEIGHTS]
  refine ⟨h1, h2, ?_⟩
  rw [h1, h2]
  norm_num

/-- **C2, amended.** Negative inputs are not clamped to zero before scoring,
but none ever raises the score relative to zero: for screen time, meetings
and sleep a negative value scores exactly as 0 does, and for the seven other
numeric fields a negative value weakly lowers the returned score. -/
theorem negative_inputs_never_raise_score (m : DailyMetrics) (x : ℚ)
    (hx : x < 0) :
    (calculateProductivityScore { m with github_commits := some x } ≤
      calculateProductivityScore { m with github_commits := some 0 }) ∧
    (calculateProductivityScore { m with github_prs := some x } ≤
      calculateProductivityScore { m with github_prs := some 0 }) ∧
    (calculateProductivityScore { m with github_coding_minutes := some x } ≤
      calculateProductivityScore { m with github_coding_minutes := some 0 }) ∧
    (calculateProductivityScore { m with exercise_minutes := some x } ≤
      calculateProductivityScore { m with exercise_minutes := some 0 }) ∧
    (calculateProductivityScore { m with workout_streak := some x } ≤
      calculateProductivityScore { m with workout_streak := some 0 }) ∧
    (calculateProductivityScore { m with focus_time_minutes := some x } ≤
      calculateProductivityScore { m with focus_time_minutes := some 0 }) ∧
    (calculateProductivityScore { m with steps := some x } ≤
      calculateProductivityScore { m with steps := some 0 }) ∧
    (calculateProductivityScore { m with screen_time_minutes := some x } =
      calculateProductivityScore { m with screen_time_minutes := some 0 }) ∧
    (calculateProductivityScore { m with meetings_minutes := some x } =
      calculateProductivityScore { m with meetings_minutes := some 0 }) ∧
    (calculateProductivityScore { m with sleep_hours := some x } =
      calculateProductivityScore { m with sleep_hours := some 0 }) :=
  ⟨score_mono_commits m hx.le, score_mono_prs m hx.le,
    score_mono_coding m hx.le, score_mono_exercise m hx.le,
    score_mono_streak m hx.le, score_mono_focus m hx.le,
    score_mono_steps m hx.le, score_screen_nonpos_eq m hx.le,
    score_meetings_nonpos_eq m hx.le, score_sleep_nonpos_eq m hx.le⟩

/-- Witness for the amended C2, at the concrete negative input −3. -/
theorem negative_inputs_never_raise_score_witness :
    ((-3 : ℚ) < 0) ∧
    ((calculateProductivityScore { baseMetrics with github_commits := some (-3) } ≤
      calculateProductivityScore { baseMetrics with github_commits := some 0 }) ∧
    (calculateProductivityScore { baseMetrics with github_prs := some (-3) } ≤
      calculateProductivityScore { baseMetrics with github_prs := some 0 }) ∧
    (calculateProductivityScore { baseMetrics with github_coding_minutes := some (-3) } ≤
      calculateProductivityScore { baseMetrics with github_coding_minutes := some 0 }) ∧
    (calculateProductivityScore { baseMetrics with exercise_minutes := some (-3) } ≤
      calculateProductivityScore { baseMetrics with exercise_minutes := some 0 }) ∧
    (calculateProductivityScore { baseMetrics with workout_streak := some (-3) } ≤
      calculateProductivityScore { baseMetrics with workout_streak := some 0 }) ∧
    (calculateProductivityScore { baseMetrics with focus_time_minutes := some (-3) } ≤
      calculateProductivityScore { baseMetrics with focus_time_minutes := some 0 }) ∧
    (calculateProductivityScore { baseMetrics with steps := some (-3) } ≤
      calculateProductivityScore { baseMetrics with steps := some 0 }) ∧
    (calculateProductivityScore { baseMetrics with screen_time_minutes := some (-3) } =
      calculateProductivityScore { baseMetrics with screen_time_minutes := some 0 }) ∧
    (calculateProductivityScore { baseMetrics with meetings_minutes := some (-3) } =
      calculateProductivityScore { baseMetrics with meetings_minutes := some 0 }) ∧
    (calculateProductivityScore { baseMetrics with sleep_hours := some (-3) } =
      calculateProductivityScore { baseMetrics with sleep_hours := some 0 })) :=
  ⟨by norm_num, negative_inputs_never_raise_score baseMetrics (-3) (by norm_num)⟩

/-- A record sleeping exactly 8 hours (top of the optimal band). -/
def sleepEightMetrics : DailyMetrics := { date := "2025-01-06", sleep_hours := some 8 }

/-- A record sleeping 9 hours (outside the optimal band). -/
def sleepNineMetrics : DailyMetrics := { date := "2025-01-06", sleep_hours := some 9 }

/-- **C8, counterexample.** The score is not monotone in `sleep_hours`:
raising sleep from 8 to 9 hours drops the sleep sub-term from 5 (optimal
7–8 band) to 3 (6–9 band), so the score strictly decreases. -/
theorem score_not_monotone_in_sleep :
    (8 : ℚ) ≤ 9 ∧
    calculateProductivityScore sleepEightMetrics = 5 ∧
    calculateProductivityScore sleepNineMetrics = 3 ∧
    calculateProductivityScore sleepNineMetrics <
      calculateProductivityScore sleepEightMetrics := by
  have h1 : calculateProductivityScore sleepEightMetrics = 5 := by
    norm_num [calculateProductivityScore, sleepEightMetrics, orZero,
      orFalse, jsRound, WEIGHTS]
  have h2 : calculateProductivityScore sleepNineMetrics = 3 := by
    norm_num [calculateProductivityScore, sleepNineMetrics, orZero,
      orFalse, jsRound, WEIGHTS]
  refine ⟨by norm_num, h1, h2, ?_⟩
  rw [h1, h2]
  norm_num

/-- **C8, amended.** The score is monotonically non-decreasing in each of
the seven capped positive fields (commits, PRs, coding minutes, exercise
minutes, workout streak, focus minutes, steps) with everything else fixed,
and commit counts at or above the cap of 10 all give the same score; but it
is *not* monotone in `sleep_hours`, whose optimal-band ladder decreases past
8 hours. -/
theorem score_monotone_positive_fields (m : DailyMetrics) (x y : ℚ)
    (h : x ≤ y) :
    ((calculateProductivityScore { m with github_commits := some x } ≤
        calculateProductivityScore { m with github_commits := some y }) ∧
      (calculateProductivityScore { m with github_prs := some x } ≤
        calculateProductivityScore { m with github_prs := some y }) ∧
      (calculateProductivityScore { m with github_coding_minutes := some x } ≤
        calculateProductivityScore { m with github_coding_minutes := some y }) ∧
      (calculateProductivityScore { m with exercise_minutes := some x } ≤
        calculateProductivityScore { m with exercise_minutes := some y }) ∧
      (calculateProductivityScore { m with workout_streak := some x } ≤
        calculateProductivityScore { m with workout_streak := some y }) ∧
      (calculateProductivityScore { m with focus_time_minutes := some x } ≤
        calculateProductivityScore { m with focus_time_minutes := some y }) ∧
      (calculateProductivityScore { m with steps := some x } ≤
        calculateProductivityScore { m with steps := some y })) ∧
    (10 ≤ x →
      calculateProductivityScore { m with github_commits := some x } =
      calculateProductivityScore { m with github_commits := some 10 }) :=
  ⟨⟨score_mono_commits m h, score_mono_prs m h, score_mono_coding m h,
    score_mono_exercise m h, score_mono_streak m h, score_mono_focus m h,
    score_mono_steps m h⟩,
    fun h10 => score_commits_saturate m h10⟩

/-- Witness for the amended C8, at the concrete pair 11 ≤ 12. -/
theorem score_monotone_positive_fields_witness :
    ((calculateProductivityScore { baseMetrics with github_commits := some 11 } ≤
        calculateProductivityScore { baseMetrics with github_commits := some 12 }) ∧
      (calculateProductivityScore { baseMetrics with github_prs := some 11 } ≤
        calculateProductivityScore { baseMetrics with github_prs := some 12 }) ∧
      (calculateProductivityScore { baseMetrics with github_coding_minutes := some 11 } ≤
        calculateProductivityScore { baseMetrics with github_coding_minutes := some 12 }) ∧
      (calculateProductivityScore { baseMetrics with exercise_minutes := some 11 } ≤
        calculateProductivityScore { baseMetrics with exercise_minutes := some 12 }) ∧
      (calculateProductivityScore { baseMetrics with workout_streak := some 11 } ≤
        calculateProductivityScore { baseMetrics with workout_streak := some 12 }) ∧
      (calculateProductivityScore { baseMetrics with focus_time_minutes := some 11 } ≤
        calculateProductivityScore { baseMetrics with focus_time_minutes := some 12 }) ∧
      (calculateProductivityScore { baseMetrics with steps := some 11 } ≤
        calculateProductivityScore { baseMetrics with steps := some 12 })) ∧
    (calculateProductivityScore { baseMetrics with github_commits := some 11 } =
      calculateProductivityScore { baseMetrics with github_commits := some 10 }) :=
  ⟨(score_monotone_positive_fields baseMetrics 11 12 (by norm_num)).1,
    (score_monotone_positive_fields baseMetrics 11 12 (by norm_num)).2 (by norm_num)⟩

/-! ## Claim theorems: the weekly pattern analyzer -/

/-- A weekday lookup that parses no date (every date maps to `NaN`). -/
def noWeekday : String → Option (Fin 7) := fun _ => none

theorem foldl_add_map (f : ScoredDay → ℚ) (init : ℚ) (ds : List ScoredDay) :
    ds.foldl (fun s d => s + f d) init = init + (ds.map f).sum := by
  induction ds generalizing init with
  | nil => simp
  | cons d t ih =>
    rw [List.foldl_cons, List.map_cons, List.sum_cons, ih]
    ring

theorem sumScores_eq (ds : List ScoredDay) :
    sumScores ds = (ds.map (fun d => d.score)).sum := by
  simpa using foldl_add_map (fun d => d.score) 0 ds

theorem map_score_dailyScoresOf (l : List DailyMetrics) :
    (dailyScoresOf l).map (fun d => d.score) = scoreList l := by
  simp [dailyScoresOf, scoreList, List.map_map]
  intro a _
  rfl

theorem length_dailyScoresOf (l : List DailyMetrics) :
    (dailyScoresOf l).length = l.length := by
  simp [dailyScoresOf]

theorem length_scoreList (l : List DailyMetrics) :
    (scoreList l).length = l.length := by
  simp [scoreList]

theorem avgOf_eq (l : List DailyMetrics) :
    avgOf (dailyScoresOf l) = listAvg (scoreList l) := by
  rw [avgOf, listAvg, sumScores_eq, map_score_dailyScoresOf,
    length_dailyScoresOf, length_scoreList]

theorem varianceOf_eq (l : List DailyMetrics) :
    varianceOf (dailyScoresOf l) = popVariance (scoreList l) := by
  have h : (dailyScoresOf l).foldl
      (fun s d => s + (d.score - avgOf (dailyScoresOf l)) ^ 2) 0 =
      ((dailyScoresOf l).map
        (fun d => (d.score - avgOf (dailyScoresOf l)) ^ 2)).sum := by
    simpa using
      foldl_add_map (fun d => (d.score - avgOf (dailyScoresOf l)) ^ 2) 0
        (dailyScoresOf l)
  rw [varianceOf, popVariance, h, length_dailyScoresOf, length_scoreList,
    avgOf_eq]
  congr 1
  rw [scoreList, dailyScoresOf, List.map_map, List.map_map]
  rfl

/-- **C4.** `detectPatterns` on the empty sequence takes the explicit
empty-input branch and returns the neutral result: zero average, zero
consistency, zero workout correlation, the `N/A` sentinel for best and worst
day, a stable trend, and empty insight and recommendation lists. -/
theorem detectPatterns_empty (getDay : String → Option (Fin 7)) :
    detectPatterns getDay [] =
      { avgDailyScore := 0, consistency := 0, workoutCorrelation := 0,
        bestDay := "N/A", worstDay := "N/A", trend := Trend.stable,
        insights := [], recommendations := [] } := rfl

theorem detectPatterns_trend_eq (g : String → Option (Fin 7))
    (l : List DailyMetrics) (h : l ≠ []) :
    (detectPatterns g l).trend = trendOf (dailyScoresOf l) := by
  rw [detectPatterns, if_neg (by simpa using h)]

theorem take_dailyScoresOf (l : List DailyMetrics) (k : ℕ) :
    (dailyScoresOf l).take k = dailyScoresOf (l.take k) := by
  rw [dailyScoresOf, dailyScoresOf, List.map_take]

theorem drop_dailyScoresOf (l : List DailyMetrics) (k : ℕ) :
    (dailyScoresOf l).drop k = dailyScoresOf (l.drop k) := by
  rw [dailyScoresOf, dailyScoresOf, List.map_drop]

theorem scoreList_take (l : List DailyMetrics) (k : ℕ) :
    scoreList (l.take k) = (scoreList l).take k := by
  rw [scoreList, scoreList, List.map_take]

theorem scoreList_drop (l : List DailyMetrics) (k : ℕ) :
    scoreList (l.drop k) = (scoreList l).drop k := by
  rw [scoreList, scoreList, List.map_drop]

/-- **C5.** Weeks of fewer than 4 days always report a stable trend; for
n ≥ 4 days the trend compares the mean score of the first `⌊n/2⌋` days with
the mean of the remaining days: improving exactly when the second mean
exceeds the first by more than 10, declining exactly when the first exceeds
the second by more than 10, stable otherwise. -/
theorem trend_halfsplit (g : String → Option (Fin 7)) (l : List DailyMetrics) :
    (l.length < 4 → (detectPatterns g l).trend = Trend.stable) ∧
    (4 ≤ l.length →
      (((detectPatterns g l).trend = Trend.improving ↔
        10 < listAvg ((scoreList l).drop (l.length / 2)) -
          listAvg ((scoreList l).take (l.length / 2))) ∧
      ((detectPatterns g l).trend = Trend.declining ↔
        10 < listAvg ((scoreList l).take (l.length / 2)) -
          listAvg ((scoreList l).drop (l.length / 2))) ∧
      ((detectPatterns g l).trend = Trend.stable ↔
        ¬(10 < listAvg ((scoreList l).drop (l.length / 2)) -
            listAvg ((scoreList l).take (l.length / 2))) ∧
        ¬(10 < listAvg ((scoreList l).take (l.length / 2)) -
            listAvg ((scoreList l).drop (l.length / 2)))))) := by
  constructor
  · intro hlt
    rcases eq_or_ne l [] with rfl | hne
    · rfl
    · rw [detectPatterns_trend_eq g l hne, trendOf,
        if_neg (by rw [length_dailyScoresOf]; omega)]
  · intro hge
    have hne : l ≠ [] := by
      intro e
      rw [e] at hge
      simp at hge
    have hmid_le : l.length / 2 ≤ l.length := Nat.div_le_self _ _
    have hfa : sumScores ((dailyScoresOf l).take (l.length / 2)) /
        ((l.length / 2 : ℕ) : ℚ) =
        listAvg ((scoreList l).take (l.length / 2)) := by
      rw [take_dailyScoresOf, sumScores_eq, map_score_dailyScoresOf,
        scoreList_take, listAvg, List.length_take, length_scoreList,
        Nat.min_eq_left hmid_le]
    have hsa : sumScores ((dailyScoresOf l).drop (l.length / 2)) /
        ((l.length - l.length / 2 : ℕ) : ℚ) =
        listAvg ((scoreList l).drop (l.length / 2)) := by
      rw [drop_dailyScoresOf, sumScores_eq, map_score_dailyScoresOf,
        scoreList_drop, listAvg, List.length_drop, length_scoreList]
    rw [detectPatterns_trend_eq g l hne, trendOf, length_dailyScoresOf,
      if_pos hge]
    dsimp only
    rw [hfa, hsa]
    by_cases h1 : 10 < listAvg ((scoreList l).drop (l.length / 2)) -
        listAvg ((scoreList l).take (l.length / 2))
    · have h2 : ¬ 10 < listAvg ((scoreList l).take (l.length / 2)) -
          listAvg ((scoreList l).drop (l.length / 2)) := by linarith
      rw [if_pos h1]
      exact ⟨iff_of_true rfl h1,
        iff_of_false (by decide) h2,
        iff_of_false (by decide) (fun hc => hc.1 h1)⟩
    · rw [if_neg h1]
      by_cases h2 : 10 < listAvg ((scoreList l).take (l.length / 2)) -
          listAvg ((scoreList l).drop (l.length / 2))
      · rw [if_pos h2]
        exact ⟨iff_of_false (by decide) h1,
          iff_of_true rfl h2,
          iff_of_false (by decide) (fun hc => hc.2 h2)⟩
      · rw [if_neg h2]
        exact ⟨iff_of_false (by decide) h1,
          iff_of_false (by decide) h2,
          iff_of_true rfl ⟨h1, h2⟩⟩

/-- A day scoring 20 points: 10 commits (10) and 5 PRs (10). -/
def twentyPointMetrics : DailyMetrics :=
  { date := "2025-01-09", github_commits := some 10, github_prs := some 5 }

/-- Witness for C5: a single-day week is stable, and a 4-day week whose
second half outscores the first half by 20 points is improving. -/
theorem trend_halfsplit_witness :
    (detectPatterns noWeekday [baseMetrics]).trend = Trend.stable ∧
    (detectPatterns noWeekday
      [baseMetrics, baseMetrics, twentyPointMetrics, twentyPointMetrics]).trend =
      Trend.improving := by
  constructor
  · exact (trend_halfsplit noWeekday [baseMetrics]).1 (by norm_num)
  · refine (((trend_halfsplit noWeekday
      [baseMetrics, baseMetrics, twentyPointMetrics, twentyPointMetrics]).2
      (by norm_num)).1).mpr ?_
    have hbase : calculateProductivityScore baseMetrics = 0 := by
      norm_num [calculateProductivityScore, baseMetrics, orZero, orFalse,
        jsRound, WEIGHTS]
    have htwenty : calculateProductivityScore twentyPointMetrics = 20 := by
      norm_num [calculateProductivityScore, twentyPointMetrics, orZero,
        orFalse, jsRound, WEIGHTS]
    norm_num [scoreList, listAvg, hbase, htwenty]

theorem detectPatterns_wc_eq (g : String → Option (Fin 7))
    (l : List DailyMetrics) (h : l ≠ []) :
    (detectPatterns g l).workoutCorrelation =
      (jsRound (workoutCorrelationOf (dailyScoresOf l) * 100) : ℚ) / 100 := by
  rw [detectPatterns, if_neg (by simpa using h)]

theorem listAvg_map_score (ds : List ScoredDay) :
    listAvg (ds.map (fun d => d.score)) = sumScores ds / ds.length := by
  rw [listAvg, sumScores_eq, List.length_map]

/-- **C6.** For every non-empty week the reported workout correlation is 0
whenever the exercised or the non-exercised partition (by the
`exercised_today` flag) is empty; otherwise it equals the difference of the
two partition mean scores divided by 50, clamped to [−1, 1] and rounded to
two decimal places.  In particular any week whose exercised days outscore
the non-exercised days by 50 or more (the specification's 90-versus-40
shape) yields the clamped maximum 1. -/
theorem workout_correlation_formula (g : String → Option (Fin 7))
    (l : List DailyMetrics) (h : l ≠ []) :
    (((dailyScoresOf l).filter (fun d => d.exercised) = [] ∨
      (dailyScoresOf l).filter (fun d => !d.exercised) = []) →
      (detectPatterns g l).workoutCorrelation = 0) ∧
    ((dailyScoresOf l).filter (fun d => d.exercised) ≠ [] →
      (dailyScoresOf l).filter (fun d => !d.exercised) ≠ [] →
      (detectPatterns g l).workoutCorrelation =
        round2 (min 1 (max (-1)
          ((listAvg (((dailyScoresOf l).filter
              (fun d => d.exercised)).map (fun d => d.score)) -
            listAvg (((dailyScoresOf l).filter
              (fun d => !d.exercised)).map (fun d => d.score))) / 50)))) := by
  constructor
  · intro hempty
    rw [detectPatterns_wc_eq g l h, workoutCorrelationOf]
    dsimp only
    rw [if_neg (by
      rcases hempty with he | he <;> rw [he] <;> simp)]
    norm_num [jsRound]
  · intro hex hnex
    rw [detectPatterns_wc_eq g l h, workoutCorrelationOf]
    dsimp only
    rw [if_pos ⟨List.length_pos.mpr hex, List.length_pos.mpr hnex⟩,
      round2, listAvg_map_score, listAvg_map_score]

/-- An exercised day hitting every positive cap: scores the maximum 85. -/
def maxedExercisedMetrics : DailyMetrics :=
  { date := "2025-01-07", github_commits := some 10, github_prs := some 5,
    github_coding_minutes := some 300, exercise_minutes := some 225,
    workout_streak := some 5, exercised_today := some true,
    focus_time_minutes := some 300, deep_work_session := some true,
    sleep_hours := some (15/2), steps := some 10000 }

/-- Witness for C6: a two-day week whose exercised day scores 85 and whose
non-exercised day scores 0 (difference 85 ≥ 50) rounds to the clamped
correlation 1. -/
theorem workout_correlation_formula_witness :
    (detectPatterns noWeekday
      [maxedExercisedMetrics, baseMetrics]).workoutCorrelation = 1 := by
  have hfe : (dailyScoresOf [maxedExercisedMetrics, baseMetrics]).filter
      (fun d => d.exercised) = [toScoredDay maxedExercisedMetrics] := by
    simp [dailyScoresOf, toScoredDay, orFalse, maxedExercisedMetrics,
      baseMetrics]
  have hfne : (dailyScoresOf [maxedExercisedMetrics, baseMetrics]).filter
      (fun d => !d.exercised) = [toScoredDay baseMetrics] := by
    simp [dailyScoresOf, toScoredDay, orFalse, maxedExercisedMetrics,
      baseMetrics]
  have h := (workout_correlation_formula noWeekday
    [maxedExercisedMetrics, baseMetrics] (by simp)).2
    (by rw [hfe]; simp) (by rw [hfne]; simp)
  rw [h, hfe, hfne]
  have h85 : calculateProductivityScore maxedExercisedMetrics = 85 := by
    norm_num [calculateProductivityScore, maxedExercisedMetrics, orZero,
      orFalse, jsRound, WEIGHTS]
  have h0 : calculateProductivityScore baseMetrics = 0 := by
    norm_num [calculateProductivityScore, baseMetrics, orZero, orFalse,
      jsRound, WEIGHTS]
  norm_num [toScoredDay, listAvg, round2, jsRound, h85, h0]

theorem detectPatterns_consistency_eq (g : String → Option (Fin 7))
    (l : List DailyMetrics) (h : l ≠ []) :
    (detectPatterns g l).consistency =
      jsRoundReal (consistencyOf (dailyScoresOf l)) := by
  rw [detectPatterns, if_neg (by simpa using h)]

theorem jsRoundReal_intCast (z : ℤ) : jsRoundReal (z : ℝ) = z := by
  rw [jsRoundReal, Int.floor_int_add]
  norm_num

theorem dailyScoresOf_replicate (n : ℕ) (m : DailyMetrics) :
    dailyScoresOf (List.replicate n m) = List.replicate n (toScoredDay m) := by
  simp [dailyScoresOf]

theorem sumScores_replicate (n : ℕ) (d : ScoredDay) :
    sumScores (List.replicate n d) = n * d.score := by
  rw [sumScores_eq, List.map_replicate, List.sum_replicate, nsmul_eq_mul]

theorem avgOf_replicate {n : ℕ} (hn : 0 < n) (d : ScoredDay) :
    avgOf (List.replicate n d) = d.score := by
  rw [avgOf, sumScores_replicate, List.length_replicate]
  exact mul_div_cancel_left₀ _ (Nat.cast_ne_zero.mpr hn.ne')

theorem varianceOf_replicate {n : ℕ} (hn : 0 < n) (d : ScoredDay) :
    varianceOf (List.replicate n d) = 0 := by
  rw [varianceOf, avgOf_replicate hn]
  have h : (List.replicate n d).foldl
      (fun s d' => s + (d'.score - d.score) ^ 2) 0 = 0 := by
    have h2 := foldl_add_map
      (fun d' => (d'.score - d.score) ^ 2) 0 (List.replicate n d)
    rw [List.map_replicate] at h2
    rw [h2]
    simp [sub_self]
  rw [h]
  simp

theorem workoutCorrelationOf_replicate (n : ℕ) (d : ScoredDay) :
    workoutCorrelationOf (List.replicate n d) = 0 := by
  rw [workoutCorrelationOf]
  dsimp only
  rcases hd : d.exercised with _ | _
  · have hf : (List.replicate n d).filter (fun x => x.exercised) = [] :=
      List.filter_replicate_of_neg (by simp [hd])
    rw [hf, if_neg (by simp)]
  · have hf : (List.replicate n d).filter (fun x => !x.exercised) = [] :=
      List.filter_replicate_of_neg (by simp [hd])
    rw [hf, if_neg (by simp)]

/-- **C7.** For every non-empty week the reported consistency equals
`max(0, 100 − 2·stddev)` rounded to the nearest integer, where `stddev` is
the population standard deviation (divisor = day count) of the per-day
scores; and a week of n ≥ 1 identical daily records has consistency 100 and
workout correlation 0. -/
theorem consistency_formula (g : String → Option (Fin 7))
    (l : List DailyMetrics) :
    (l ≠ [] → (detectPatterns g l).consistency =
      jsRoundReal (max 0 (100 - 2 * Real.sqrt (popVariance (scoreList l))))) ∧
    (∀ m : DailyMetrics, ∀ n : ℕ, 0 < n →
      (detectPatterns g (List.replicate n m)).consistency = 100 ∧
      (detectPatterns g (List.replicate n m)).workoutCorrelation = 0) := by
  constructor
  · intro h
    rw [detectPatterns_consistency_eq g l h, consistencyOf, varianceOf_eq]
    congr 1
    congr 1
    ring
  · intro m n hn
    have hne : List.replicate n m ≠ [] := by simp [hn.ne']
    constructor
    · rw [detectPatterns_consistency_eq g _ hne, consistencyOf,
        dailyScoresOf_replicate, varianceOf_replicate hn]
      have h100 : max (0 : ℝ) (100 - Real.sqrt ((0 : ℚ) : ℝ) * 2) = ((100 : ℤ) : ℝ) := by
        norm_num [Real.sqrt_zero]
      rw [h100, jsRoundReal_intCast]
    · rw [detectPatterns_wc_eq g _ hne, dailyScoresOf_replicate,
        workoutCorrelationOf_replicate]
      norm_num [jsRound]

/-- Witness for C7: a week of 7 identical (empty) records satisfies both the
formula and the identical-records consequences. -/
theorem consistency_formula_witness :
    (detectPatterns noWeekday (List.replicate 7 baseMetrics)).consistency =
      jsRoundReal (max 0 (100 - 2 * Real.sqrt
        (popVariance (scoreList (List.replicate 7 baseMetrics))))) ∧
    (detectPatterns noWeekday (List.replicate 7 baseMetrics)).consistency = 100 ∧
    (detectPatterns noWeekday
      (List.replicate 7 baseMetrics)).workoutCorrelation = 0 :=
  ⟨(consistency_formula noWeekday (List.replicate 7 baseMetrics)).1 (by simp),
    ((consistency_formula noWeekday (List.replicate 7 baseMetrics)).2
      baseMetrics 7 (by norm_num)).1,
    ((consistency_formula noWeekday (List.replicate 7 baseMetrics)).2
      baseMetrics 7 (by norm_num)).2⟩

/-- The recommendation list the specification describes, before truncation:
from the most recent scored day, two entries if its score is below 50, one if
it did not exercise, two if some insight mentions "fluctuates", two if some
insight mentions "declining", then the three fixed baseline entries. -/
def builtRecommendations (d : ScoredDay) (insights : List String) :
    List String :=
  (if d.score < 50 then
    ["Start tomorrow with exercise to boost productivity",
     "Block focus time early in the morning"]
   else []) ++
  (if !d.exercised then ["Add a 20-minute workout to improve focus"]
   else []) ++
  (if insights.any (fun i => jsIncludes i "fluctuates") then
    ["Create a more consistent daily routine",
     "Set fixed times for coding, exercise, and rest"]
   else []) ++
  (if insights.any (fun i => jsIncludes i "declining") then
    ["Take a rest day and plan for next week",
     "Review what changed in your routine"]
   else []) ++
  ["Aim for 7-8 hours of sleep",
   "Schedule deep work sessions (>2 hours)",
   "Limit meetings to 2 hours per day"]

theorem detectPatterns_recommendations_eq (g : String → Option (Fin 7))
    (l : List DailyMetrics) (h : l ≠ []) :
    (detectPatterns g l).recommendations =
      generateRecommendations (dailyScoresOf l)
        ((detectPatterns g l).insights) := by
  rw [detectPatterns, if_neg (by simpa using h)]

theorem generateRecommendations_cons (d : ScoredDay) (t : List ScoredDay)
    (ins : List String) :
    generateRecommendations (d :: t) ins =
      (builtRecommendations d ins).take 5 := by
  rw [generateRecommendations, builtRecommendations]
  simp only [List.head?_cons, Option.map_some', Option.getD_some]
  split_ifs <;> simp [List.append_assoc]

/-- **C9.** For every input week the recommendation list of `detectPatterns`
has length at most 5, and for a non-empty week it equals the first five
elements, in generation order, of the list built from the first (most
recent) record: two entries if its score is below 50, one if it did not
exercise, two if some insight contains "fluctuates", two if some insight
contains "declining", and the three fixed baseline entries appended last. -/
theorem recommendations_spec (g : String → Option (Fin 7))
    (l : List DailyMetrics) :
    (detectPatterns g l).recommendations.length ≤ 5 ∧
    (∀ h : l ≠ [],
      (detectPatterns g l).recommendations =
        (builtRecommendations (toScoredDay (l.head h))
          ((detectPatterns g l).insights)).take 5) := by
  rcases l with _ | ⟨m, t⟩
  · have he : (detectPatterns g ([] : List DailyMetrics)).recommendations =
        [] := rfl
    exact ⟨by simp [he], fun h => absurd rfl h⟩
  · have hne : (m :: t) ≠ [] := by simp
    have hrec := detectPatterns_recommendations_eq g (m :: t) hne
    have hds : dailyScoresOf (m :: t) = toScoredDay m :: dailyScoresOf t := by
      simp [dailyScoresOf]
    constructor
    · rw [hrec, hds, generateRecommendations_cons]
      exact List.length_take_le _ _
    · intro h
      rw [hrec, hds, generateRecommendations_cons]
      simp [List.head_cons]

/-- Witness for C9, at a concrete one-day week. -/
theorem recommendations_spec_witness :
    (detectPatterns noWeekday [baseMetrics]).recommendations =
      (builtRecommendations (toScoredDay baseMetrics)
        ((detectPatterns noWeekday [baseMetrics]).insights)).take 5 :=
  (recommendations_spec noWeekday [baseMetrics]).2 (by simp)
